import Mathlib

/-!
Shallow embedding of the scale-bar annotation tool (two sibling pipelines:
`add_scale_bar_IX71.py`, the scope-specific pipeline, and
`_scale_bar_gcode_images.py`, the generic pipeline), together with theorems
settling the spec claims about them.

Python strings are modelled as Lean `String`s and string primitives
(`endswith`, `startswith`, `in`, `lower`, slicing) are defined below directly
over the character list, matching Python's per-code-point semantics.
Image decoding/encoding and font rendering are the external collaborators the
spec declares out of scope; they enter the model only through the points the
scripts themselves observe: `cv2.imread` returning a decoded buffer or `None`,
and the platform string used to pick a font path.
-/

/-- Python `s.endswith(t)`: `t` equals the last `len(t)` characters of `s`. -/
def strEndsWith (s t : String) : Bool :=
  decide (t.data = s.data.drop (s.data.length - t.data.length))

/-- Python `s.startswith(t)`. -/
def strStartsWith (s t : String) : Bool :=
  decide (s.data.take t.data.length = t.data)

/-- Python `t in s`: `t` occurs as a contiguous substring of `s`. -/
def strContains (s t : String) : Bool :=
  (List.range (s.data.length + 1)).any
    (fun i => decide ((s.data.drop i).take t.data.length = t.data))

/-- Python `s.lower()`, applied code-point-wise. -/
def pyLower (s : String) : String := ⟨s.data.map Char.toLower⟩

/-- Python slice `s[:-n]` (for `n ≥ 1`): all but the last `n` characters. -/
def pyDropLast (s : String) (n : ℕ) : String := ⟨s.data.take (s.data.length - n)⟩

/-- The last `n` characters of `s` (the suffix that `s[:-n]` removes). -/
def pyLastN (s : String) (n : ℕ) : String := ⟨s.data.drop (s.data.length - n)⟩

/-!
## Filename-based scope detection (`detect_scope_type_from_filename`)

The source applies `re.search` with the pattern
`4X_1(?:\.6)?X|10X_1(?:\.6)?X|40X_1(?:\.6)?X` and `re.IGNORECASE`, and returns
`match.group()` (the matched text, in the filename's original case) or the
empty string.  `re.search` returns the match at the leftmost starting
position; at a given position the three alternatives are tried left to right,
and inside each alternative the optional `\.6` group is greedy (tried present
first).  The three heads `4X_1`, `10X_1`, `40X_1` are pairwise incompatible at
a single position, so alternative order cannot change the result, but the
scan below mirrors the engine's order anyway.
-/

/-- Case-insensitive comparison of an (uppercase) pattern character with a
subject character, as `re.IGNORECASE` does for these ASCII pattern letters. -/
def charIEq (p c : Char) : Bool := p == c.toUpper

/-- Case-insensitive test that the pattern characters `ps` are an initial
segment of the subject characters. -/
def listIPrefix : List Char → List Char → Bool
  | [], _ => true
  | _ :: _, [] => false
  | p :: ps, c :: cs => charIEq p c && listIPrefix ps cs

/-- Match one alternative `<head>(?:\.6)?X` of the scope pattern at the start
of `l`, greedily preferring the `.6` variant; returns the matched length. -/
def scopeMatchLen (head : List Char) (l : List Char) : Option ℕ :=
  if listIPrefix head l then
    let rest := l.drop head.length
    if listIPrefix ['.', '6', 'X'] rest then some (head.length + 3)
    else if listIPrefix ['X'] rest then some (head.length + 1)
    else none
  else none

/-- Match the full alternation at the start of `l`, alternatives in the
pattern's order. -/
def scopeMatchAt (l : List Char) : Option ℕ :=
  (scopeMatchLen ['4', 'X', '_', '1'] l).orElse fun _ =>
    (scopeMatchLen ['1', '0', 'X', '_', '1'] l).orElse fun _ =>
      scopeMatchLen ['4', '0', 'X', '_', '1'] l

/-- Leftmost match: scan positions left to right, returning the original-case
matched characters of the first position where the alternation matches. -/
def scopeScan : List Char → Option (List Char)
  | [] => none
  | c :: cs =>
    match scopeMatchAt (c :: cs) with
    | some n => some ((c :: cs).take n)
    | none => scopeScan cs

/-- Embeds `detect_scope_type_from_filename` (add_scale_bar_IX71.py lines
33-38): the text of the first case-insensitive occurrence of the scope
pattern in the path, in its original case, or `""` when there is none. -/
def detect_scope_type_from_filename (image_path : String) : String :=
  match scopeScan image_path.data with
  | some m => ⟨m⟩
  | none => ""

/-!
## Calibration table (add_scale_bar_IX71.py lines 70-95)

The source computes each bar length as `int(base * multiplier)` over Python
floats, e.g. `int(scale_pixel_4X_1X_100_um * 1.6 * 2)`.  We model the
products exactly over `ℚ` and truncate with `⌊·⌋.toNat`; every product is
positive, so floor coincides with Python's truncation toward zero, and the
float round-off in the source (e.g. `169.60000000000002` for the exact
`169.6`) never moves a product across an integer, so the truncated values
agree with the float computation: 159, 169, 198, 211, 270, 259.
-/

/-- Embeds the `if/elif` chain of add_scale_bar_IX71.py lines 70-95: the
`(scale_bar_size, label)` pair selected for a scope-type string, or `none`
for the final `else` branch (`DISPLAY_SCALE_NUMBER` is `True` in the source,
so the label is never blanked). -/
def resolve_scope_entry (scope_type : String) : Option (ℕ × String) :=
  if scope_type = "4X_1X" then some ((⌊(53 : ℚ) * 3⌋).toNat, "300 μm")
  else if scope_type = "4X_1.6X" then some ((⌊(53 : ℚ) * 1.6 * 2⌋).toNat, "200 μm")
  else if scope_type = "10X_1X" then some ((⌊(132 : ℚ) * 1.5⌋).toNat, "150 μm")
  else if scope_type = "10X_1.6X" then some ((⌊(132 : ℚ) * 1.6⌋).toNat, "100 μm")
  else if scope_type = "40X_1X" then some ((⌊(540 : ℚ) * 0.5⌋).toNat, "50 μm")
  else if scope_type = "40X_1.6X" then some ((⌊(540 : ℚ) * 1.6 * 0.3⌋).toNat, "30 μm")
  else none

/-- The six keys of the calibration table, in source order. -/
def scopeKeys : List String :=
  ["4X_1X", "4X_1.6X", "10X_1X", "10X_1.6X", "40X_1X", "40X_1.6X"]

/-- Outcome of the configuration-resolution stage of the scope-specific
pipeline (add_scale_bar_IX71.py lines 62-95). -/
inductive ResolveOutcome where
  | ok : ℕ → String → ResolveOutcome
  | unresolved : ResolveOutcome
  | invalid : ResolveOutcome
deriving DecidableEq

/-- Embeds lines 62-95 of add_scale_bar_IX71.py: with a falsy (absent or
empty) `scope_type` the key is inferred from the filename, failing with the
unresolved-configuration message when inference returns `""`; the resulting
key is then looked up in the calibration chain, the final `else` being the
invalid-configuration failure. -/
def resolveConfigIX71 (scope_type : Option String) (image_path : String) : ResolveOutcome :=
  let st := scope_type.getD ""
  let st := if st = "" then detect_scope_type_from_filename image_path else st
  if st = "" then .unresolved
  else
    match resolve_scope_entry st with
    | some (n, l) => .ok n l
    | none => .invalid

/-!
## File-level outcomes of `add_scale_bar`

Each script's `add_scale_bar` is a sequence of guarded early returns followed
by a write.  The model records, per call, which printed error message ended
the call, or the output path written on success, or that an uncaught Python
exception escaped.  The filesystem and decoder are abstracted as an
environment: `pathExists` is `os.path.exists`, `imread p = none` is
`cv2.imread(p, -1)` returning `None` (undecodable file), and `imread p =
some ⟨h, w⟩` a decoded buffer with `shape[0] = h`, `shape[1] = w`.
`platform` is `sys.platform`.
-/

/-- A decoded image buffer as observed through `image.shape`. -/
structure DecodedImage where
  h : ℕ
  w : ℕ
deriving DecidableEq

/-- The ambient state a single `add_scale_bar` call reads. -/
structure Env where
  pathExists : String → Bool
  imread : String → Option DecodedImage
  platform : String

/-- Result of one `add_scale_bar` call. -/
inductive Outcome where
  | errMsg : String → Outcome
  | written : String → Outcome
  | crash : Outcome
deriving DecidableEq

/-- Message of add_scale_bar_IX71.py line 46 and _scale_bar_gcode_images.py
line 27 (`FileNotFound`). -/
def notExistMsg : String := "The image does not exist. Please provide a valid image."

/-- Message of add_scale_bar_IX71.py line 51 (`InvalidExtension`). -/
def tifExtMsg : String := "The image must be in .tif format. Please provide a valid image."

/-- Message of add_scale_bar_IX71.py line 59 (`InvalidImageDimensions`, also
printed when the buffer failed to decode). -/
def dimMsg : String := "The image must be 1920x1440 in size. Please provide a valid image."

/-- Message of add_scale_bar_IX71.py lines 65-67 (`UnresolvedConfiguration`). -/
def unresolvedMsg : String :=
  "Failed to detect scope type from filename. Please add magnification to the filename or use the proper command-line argument."

/-- Message of add_scale_bar_IX71.py lines 92-94 (`InvalidConfiguration`). -/
def invalidMsg : String :=
  "Invalid scope type. Please use 4X_1X, 4X_1.6X, 10X_1X, 10X_1.6X, 40X_1X, or 40X_1.6X."

/-- Message of both scripts' unsupported-platform branch (`UnsupportedPlatform`). -/
def unsupportedMsg : String :=
  "Unsupported operating system. Please run this script on MacOS, Windows, or Linux."

/-- Message of _scale_bar_gcode_images.py line 32 (`InvalidExtension`). -/
def pngExtMsg (image_path : String) : String :=
  "Skipping " ++ image_path ++ ": The image must be in .png format."

/-- The platform test of both scripts' font-selection chain: one of the three
recognized families (`darwin`, `win32`, a platform starting with `linux`). -/
def platform_font_ok (platform : String) : Bool :=
  (platform == "darwin") || (platform == "win32") || strStartsWith platform "linux"

/-- Embeds `add_scale_bar` of add_scale_bar_IX71.py (lines 41-152) at the
level of its observable outcome: existence check, `.tif` extension check,
decode-and-shape check (a `None` buffer and a wrong shape print the same
message), configuration resolution, platform check, then the write to
`image_path[:-4] + "_scaled.tif"`.  Font loading and the pixel edits are the
out-of-scope collaborators; the pixel edits are modelled separately by
`annotatePixels`. -/
def add_scale_bar_IX71 (env : Env) (image_path : String) (scope_type : Option String) : Outcome :=
  if env.pathExists image_path = false then .errMsg notExistMsg
  else if strEndsWith image_path ".tif" = false then .errMsg tifExtMsg
  else
    match env.imread image_path with
    | none => .errMsg dimMsg
    | some img =>
      if img.h ≠ 1440 ∨ img.w ≠ 1920 then .errMsg dimMsg
      else
        match resolveConfigIX71 scope_type image_path with
        | .unresolved => .errMsg unresolvedMsg
        | .invalid => .errMsg invalidMsg
        | .ok _ _ =>
          if platform_font_ok env.platform = false then .errMsg unsupportedMsg
          else .written (pyDropLast image_path 4 ++ "_scaled.tif")

/-- Embeds `add_scale_bar` of _scale_bar_gcode_images.py (lines 22-96):
existence check, case-insensitive `.png` extension check, then the buffer is
used without a `None` check (`image.shape` on line 46), so an undecodable
file raises an uncaught `AttributeError`, modelled as `.crash`.  There is no
shape check; after the platform check the image is written to
`image_path[:-4] + "_scaled.png"`. -/
def add_scale_bar_gcode (env : Env) (image_path : String) : Outcome :=
  if env.pathExists image_path = false then .errMsg notExistMsg
  else if strEndsWith (pyLower image_path) ".png" = false then .errMsg (pngExtMsg image_path)
  else
    match env.imread image_path with
    | none => .crash
    | some _ =>
      if platform_font_ok env.platform = false then .errMsg unsupportedMsg
      else .written (pyDropLast image_path 4 ++ "_scaled.png")

/-- What a directory walk does: the children handed to `add_scale_bar`, in
order, and the final processed-files count line, if one is printed. -/
structure WalkResult where
  processed : List String
  printedCount : Option ℕ
deriving DecidableEq

/-- Embeds `process_directory` of add_scale_bar_IX71.py (lines 26-30), taking
the `glob` result (the directory's `*.tif` children) as input: every child
not ending in `"_scaled.tif"` is handed to `add_scale_bar` (with the
forwarded scope type, which does not influence the selection), and nothing is
printed afterwards. -/
def process_directory_IX71 (tif_files : List String) : WalkResult :=
  { processed := tif_files.filter (fun f => !(strEndsWith f "_scaled.tif")),
    printedCount := none }

/-- The `for` loop of _scale_bar_gcode_images.py lines 112-120 with the
running `processed_count`: children whose path contains `"_scaled"` are
skipped, every other child is handed to `add_scale_bar` and counted whether
or not it succeeds, and an uncaught exception from `add_scale_bar` aborts the
walk before the count line is printed. -/
def gcode_walk (env : Env) : List String → ℕ → WalkResult
  | [], n => { processed := [], printedCount := some n }
  | f :: rest, n =>
    if strContains f "_scaled" then gcode_walk env rest n
    else
      match add_scale_bar_gcode env f with
      | .crash => { processed := [f], printedCount := none }
      | _ =>
        let r := gcode_walk env rest (n + 1)
        { processed := f :: r.processed, printedCount := r.printedCount }

/-- Embeds `process_directory` of _scale_bar_gcode_images.py (lines 99-120),
taking the `glob` result (the directory's `*.png` children) as input: an
empty list prints the no-files message and no count; otherwise the loop of
`gcode_walk` runs with the count starting at zero. -/
def process_directory_gcode (env : Env) (png_files : List String) : WalkResult :=
  if png_files.isEmpty then { processed := [], printedCount := none }
  else gcode_walk env png_files 0

/-!
## Pixel-level model of the annotation step

Both scripts draw a filled rectangle with `cv2.rectangle(..., thickness=-1)`
(which fills the closed rectangle between the two given corners inclusive),
convert BGR to RGB, render the label text through PIL at a computed position,
and convert back to BGR.  The image is modelled as a total pixel map over
`ℤ × ℤ` coordinates `(x, y)`; the PIL text rendering is the out-of-scope font
collaborator and is a parameter of the model, constrained only (in the
theorems) to touch a bounded region.
-/

/-- One pixel's three channels, in buffer order. -/
structure Pix where
  c0 : ℕ
  c1 : ℕ
  c2 : ℕ
deriving DecidableEq

/-- A decoded pixel grid: the channel triple at each `(x, y)` coordinate. -/
def Img : Type := ℤ × ℤ → Pix

/-- Channel swap performed by `cv2.cvtColor` with `COLOR_BGR2RGB` and with
`COLOR_RGB2BGR`: both exchange the first and third channel. -/
def cvtColorSwap (img : Img) : Img := fun q => ⟨(img q).c2, (img q).c1, (img q).c0⟩

/-- Membership in the closed rectangle with corners `(x1, y1)` and
`(x2, y2)`, which is exactly the pixel set `cv2.rectangle` fills with
`thickness=-1`. -/
def inRect (x1 y1 x2 y2 : ℤ) (q : ℤ × ℤ) : Bool :=
  decide (x1 ≤ q.1) && decide (q.1 ≤ x2) && decide (y1 ≤ q.2) && decide (q.2 ≤ y2)

/-- `cv2.rectangle(image, (x1, y1), (x2, y2), color, thickness=-1)`. -/
def cvRectangleFilled (img : Img) (x1 y1 x2 y2 : ℤ) (color : Pix) : Img :=
  fun q => if inRect x1 y1 x2 y2 q then color else img q

/-- The bar rectangle both scripts draw: anchor
`(w - size - xOff, h - yOff)`, extent `size × thickness`. -/
def barRect (w h size xOff yOff thickness : ℕ) (q : ℤ × ℤ) : Bool :=
  inRect ((w : ℤ) - size - xOff) ((h : ℤ) - yOff) ((w : ℤ) - xOff) ((h : ℤ) - yOff + thickness) q

/-- Embeds the drawing tail shared by both `add_scale_bar`s (add_scale_bar_IX71.py
lines 100-147, _scale_bar_gcode_images.py lines 44-91): draw the filled bar on
the BGR buffer, convert to RGB, render the label at
`(posx + (size - text_width) // 2, posy - tOff)` through the abstract
renderer `render` (PIL `draw.text`, text width `txtw` as measured by
`draw.textlength`; Python's float `//` is the real floor), and convert back
to BGR. -/
def annotatePixels (img : Img) (w h : ℕ) (size xOff yOff thickness tOff : ℕ)
    (color : Pix) (txtw : ℚ) (render : ℤ × ℤ → Img → Img) : Img :=
  let posx : ℤ := (w : ℤ) - size - xOff
  let posy : ℤ := (h : ℤ) - yOff
  let withBar := cvRectangleFilled img posx posy (posx + size) (posy + thickness) color
  let textPos : ℤ × ℤ := (posx + ⌊((size : ℚ) - txtw) / 2⌋, posy - tOff)
  cvtColorSwap (render textPos (cvtColorSwap withBar))

/-- The scope-specific script's drawing tail on its validated 1920x1440
buffer, with its offset constants (lines 18-23): x-offset 60, y-offset 80,
thickness 30, text y-offset 60, white bar. -/
def annotate_IX71 (img : Img) (size : ℕ) (txtw : ℚ) (render : ℤ × ℤ → Img → Img) : Img :=
  annotatePixels img 1920 1440 size 60 80 30 60 ⟨255, 255, 255⟩ txtw render

/-- The generic script's drawing tail on a `h × w` buffer, with its offset
constants (lines 12-19): bar size `int(24 * 10) = 240`, x-offset 10,
y-offset 35, thickness 25, text y-offset 50, black bar. -/
def annotate_gcode (img : Img) (w h : ℕ) (txtw : ℚ) (render : ℤ × ℤ → Img → Img) : Img :=
  annotatePixels img w h 240 10 35 25 50 ⟨0, 0, 0⟩ txtw render

/-!
## Helper lemmas
-/

/-- Evaluation of the first calibration branch: `int(53 * 3) = 159`. -/
theorem entry_4X_1X : resolve_scope_entry "4X_1X" = some (159, "300 μm") := by
  have h : (⌊(53 : ℚ) * 3⌋).toNat = 159 := by
    have h0 : ⌊(53 : ℚ) * 3⌋ = 159 := by norm_num
    rw [h0]; rfl
  simp [resolve_scope_entry, h]

/-- Evaluation of the second calibration branch: `int(53 * 1.6 * 2) = 169`. -/
theorem entry_4X_16X : resolve_scope_entry "4X_1.6X" = some (169, "200 μm") := by
  have h : (⌊(53 : ℚ) * 1.6 * 2⌋).toNat = 169 := by
    have h0 : ⌊(53 : ℚ) * 1.6 * 2⌋ = 169 := by norm_num
    rw [h0]; rfl
  simp [resolve_scope_entry, h]

/-- Evaluation of the third calibration branch: `int(132 * 1.5) = 198`. -/
theorem entry_10X_1X : resolve_scope_entry "10X_1X" = some (198, "150 μm") := by
  have h : (⌊(132 : ℚ) * 1.5⌋).toNat = 198 := by
    have h0 : ⌊(132 : ℚ) * 1.5⌋ = 198 := by norm_num
    rw [h0]; rfl
  simp [resolve_scope_entry, h]

/-- Evaluation of the fourth calibration branch: `int(132 * 1.6) = 211`. -/
theorem entry_10X_16X : resolve_scope_entry "10X_1.6X" = some (211, "100 μm") := by
  have h : (⌊(132 : ℚ) * 1.6⌋).toNat = 211 := by
    have h0 : ⌊(132 : ℚ) * 1.6⌋ = 211 := by norm_num
    rw [h0]; rfl
  simp [resolve_scope_entry, h]

/-- Evaluation of the fifth calibration branch: `int(540 * 0.5) = 270`. -/
theorem entry_40X_1X : resolve_scope_entry "40X_1X" = some (270, "50 μm") := by
  have h : (⌊(540 : ℚ) * 0.5⌋).toNat = 270 := by
    have h0 : ⌊(540 : ℚ) * 0.5⌋ = 270 := by norm_num
    rw [h0]; rfl
  simp [resolve_scope_entry, h]

/-- Evaluation of the sixth calibration branch: `int(540 * 1.6 * 0.3) = 259`. -/
theorem entry_40X_16X : resolve_scope_entry "40X_1.6X" = some (259, "30 μm") := by
  have h : (⌊(540 : ℚ) * 1.6 * 0.3⌋).toNat = 259 := by
    have h0 : ⌊(540 : ℚ) * 1.6 * 0.3⌋ = 259 := by norm_num
    rw [h0]; rfl
  simp [resolve_scope_entry, h]

/-- The calibration chain falls through to its final `else` exactly for the
strings that are not one of the six table keys. -/
theorem entry_eq_none_iff (k : String) :
    resolve_scope_entry k = none ↔ k ∉ scopeKeys := by
  unfold resolve_scope_entry scopeKeys
  split_ifs with h1 h2 h3 h4 h5 h6 <;> simp_all

/-- An explicit non-empty scope type bypasses filename inference and goes
straight to the calibration chain. -/
theorem resolveConfigIX71_some (k : String) (hk : k ≠ "") (image_path : String) :
    resolveConfigIX71 (some k) image_path =
      match resolve_scope_entry k with
      | some (n, l) => .ok n l
      | none => .invalid := by
  simp [resolveConfigIX71, hk]

/-- Splitting a string at `n` characters from the end. -/
theorem pySplit (s : String) (n : ℕ) : s = pyDropLast s n ++ pyLastN s n := by
  apply String.ext
  rw [String.data_append]
  exact (List.take_append_drop _ _).symm

/-- A successful Python `endswith` pins down the last characters of the
string. -/
theorem strEndsWith_data {s t : String} (h : strEndsWith s t = true) :
    s.data.drop (s.data.length - t.data.length) = t.data := by
  unfold strEndsWith at h
  exact (of_decide_eq_true h).symm

/-- A string passing Python `endswith(t)` splits as a stem followed by `t`
itself. -/
theorem strEndsWith_decomp {s t : String} (h : strEndsWith s t = true) :
    s = pyDropLast s t.data.length ++ t := by
  apply String.ext
  rw [String.data_append]
  have hd := strEndsWith_data h
  calc s.data
      = s.data.take (s.data.length - t.data.length)
        ++ s.data.drop (s.data.length - t.data.length) := (List.take_append_drop _ _).symm
    _ = (pyDropLast s t.data.length).data ++ t.data := by rw [hd]; rfl

/-- A string whose lowercasing passes `endswith(t)` has a last segment that
lowercases to `t`. -/
theorem pyLower_strEndsWith {s t : String} (h : strEndsWith (pyLower s) t = true) :
    pyLower (pyLastN s t.data.length) = t := by
  have hd := strEndsWith_data h
  apply String.ext
  show (s.data.drop (s.data.length - t.data.length)).map Char.toLower = t.data
  have hlen : (pyLower s).data.length = s.data.length := by
    simp [pyLower]
  rw [List.map_drop]
  calc (s.data.map Char.toLower).drop (s.data.length - t.data.length)
      = (pyLower s).data.drop ((pyLower s).data.length - t.data.length) := by
        rw [hlen]; rfl
    _ = t.data := hd

/-- The channel swap of `cvtColor` is an involution: converting BGR to RGB
and back restores every pixel. -/
theorem cvtColorSwap_involutive (im : Img) : cvtColorSwap (cvtColorSwap im) = im := by
  funext q
  rfl

/-- A filesystem where every path exists, decodes to a 1920x1440 buffer, and
the platform is Linux; used to exercise the pipelines at concrete inputs. -/
def envOK : Env :=
  { pathExists := fun _ => true, imread := fun _ => some ⟨1440, 1920⟩, platform := "linux" }

/-!
## Claims
-/

/-- C1: for each of the six explicit scope keys, resolution in the
scope-specific pipeline returns exactly the tabulated `(bar_length_px, label)`
pair — `(159, "300 μm")`, `(169, "200 μm")`, `(198, "150 μm")`,
`(211, "100 μm")`, `(270, "50 μm")`, `(259, "30 μm")` — each bar length being
the base reference times the multiplier truncated toward zero (the `⌊·⌋` in
`resolve_scope_entry`, evaluated by the `entry_*` lemmas). -/
theorem c1_explicit_keys_table :
    ∀ image_path : String,
      resolveConfigIX71 (some "4X_1X") image_path = .ok 159 "300 μm"
      ∧ resolveConfigIX71 (some "4X_1.6X") image_path = .ok 169 "200 μm"
      ∧ resolveConfigIX71 (some "10X_1X") image_path = .ok 198 "150 μm"
      ∧ resolveConfigIX71 (some "10X_1.6X") image_path = .ok 211 "100 μm"
      ∧ resolveConfigIX71 (some "40X_1X") image_path = .ok 270 "50 μm"
      ∧ resolveConfigIX71 (some "40X_1.6X") image_path = .ok 259 "30 μm" := by
  intro p
  refine ⟨?_, ?_, ?_, ?_, ?_, ?_⟩
  · rw [resolveConfigIX71_some _ (by decide) p, entry_4X_1X]
  · rw [resolveConfigIX71_some _ (by decide) p, entry_4X_16X]
  · rw [resolveConfigIX71_some _ (by decide) p, entry_10X_1X]
  · rw [resolveConfigIX71_some _ (by decide) p, entry_10X_16X]
  · rw [resolveConfigIX71_some _ (by decide) p, entry_40X_1X]
  · rw [resolveConfigIX71_some _ (by decide) p, entry_40X_16X]

/-- C2 is false as stated: the filename "img_10x_1x.tif" contains a
case-insensitive occurrence of the pattern (the 10X_1X key, whose entry is
`(198, "150 μm")`), yet resolution with no explicit key does not yield that
entry — the matched text keeps the filename's lowercase form, fails the
case-sensitive calibration lookup, and resolution ends in the
invalid-configuration failure. -/
theorem c2_counterexample :
    resolveConfigIX71 none "img_10x_1x.tif" = .invalid
    ∧ ResolveOutcome.invalid ≠ ResolveOutcome.ok 198 "150 μm" := by
  exact ⟨by decide, by decide⟩

/-- C2 amended: with no explicit key, the pipeline runs the case-insensitive
first-occurrence scan and then looks the matched text up case-sensitively.
Resolution yields the entry of key `k` exactly when the first occurrence is
verbatim `k`; it fails with `UnresolvedConfiguration` when there is no
occurrence, and with `InvalidConfiguration` when the first matched text is
not verbatim a table key (for example when it is lowercase).  In particular
"sample_10X_1.6X.tif" yields `(211, "100 μm")` while "a_10x_1.6x.tif" fails. -/
theorem c2_amended :
    (∀ image_path : String,
      (detect_scope_type_from_filename image_path = "" →
        resolveConfigIX71 none image_path = .unresolved)
      ∧ (∀ k, detect_scope_type_from_filename image_path = k → k ≠ "" →
          k ∉ scopeKeys → resolveConfigIX71 none image_path = .invalid)
      ∧ (∀ k n l, detect_scope_type_from_filename image_path = k →
          resolve_scope_entry k = some (n, l) →
          resolveConfigIX71 none image_path = .ok n l))
    ∧ resolveConfigIX71 none "sample_10X_1.6X.tif" = .ok 211 "100 μm"
    ∧ resolveConfigIX71 none "a_10x_1.6x.tif" = .invalid := by
  refine ⟨fun p => ⟨?_, ?_, ?_⟩, ?_, ?_⟩
  · intro h
    simp [resolveConfigIX71, h]
  · intro k hdet hk hmem
    have hnone : resolve_scope_entry k = none := (entry_eq_none_iff k).mpr hmem
    simp [resolveConfigIX71, hdet, hk, hnone]
  · intro k n l hdet hsome
    rcases eq_or_ne k "" with rfl | hk
    · rw [(by decide : resolve_scope_entry "" = none)] at hsome
      exact absurd hsome (by simp)
    · simp [resolveConfigIX71, hdet, hk, hsome]
  · have hdet : detect_scope_type_from_filename "sample_10X_1.6X.tif" = "10X_1.6X" := by decide
    simp [resolveConfigIX71, hdet, entry_10X_16X]
  · decide

/-- Witness for the amended C2 at concrete inputs: a filename with no
occurrence of the pattern resolves to the unresolved-configuration failure. -/
theorem c2_amended_witness :
    resolveConfigIX71 none "plain_image.tif" = .unresolved :=
  (c2_amended.1 "plain_image.tif").1 (by decide)

/-- Files whose path contains the `"_scaled"` marker are never handed to the
generic pipeline's `add_scale_bar`, whatever the loop's running count is. -/
theorem gcode_walk_skips_marked (env : Env) (files : List String) (f : String)
    (hf : strContains f "_scaled" = true) :
    ∀ n, f ∉ (gcode_walk env files n).processed := by
  induction files with
  | nil => intro n; simp [gcode_walk]
  | cons g rest ih =>
    intro n
    by_cases hg : strContains g "_scaled" = true
    · simp only [gcode_walk, hg, if_true]
      exact ih n
    · have hgf : f ≠ g := fun he => hg (he ▸ hf)
      simp only [gcode_walk, hg, if_false]
      cases houtcome : add_scale_bar_gcode env g with
      | errMsg m => simpa [houtcome, hgf] using ih (n + 1)
      | written p => simpa [houtcome, hgf] using ih (n + 1)
      | crash => simp [houtcome, hgf]

/-- C3 is false as stated: the scope-specific walker tests only for the exact
suffix `"_scaled.tif"`, so the child "a_scaled_v2.tif", whose name contains
the `"_scaled"` marker, is handed to annotation rather than skipped. -/
theorem c3_counterexample :
    strContains "a_scaled_v2.tif" "_scaled" = true
    ∧ "a_scaled_v2.tif" ∈ (process_directory_IX71 ["a_scaled_v2.tif"]).processed := by
  exact ⟨by decide, by decide⟩

/-- C3 amended: the generic walker never hands a child whose path contains
the `"_scaled"` marker to annotation; the scope-specific walker instead
skips exactly the children ending in `"_scaled.tif"` — which covers every
output that pipeline itself produces, but not names that merely contain the
marker elsewhere. -/
theorem c3_amended :
    (∀ (env : Env) (png_files : List String) (f : String),
        strContains f "_scaled" = true →
        f ∉ (process_directory_gcode env png_files).processed)
    ∧ (∀ (tif_files : List String) (f : String),
        f ∈ (process_directory_IX71 tif_files).processed ↔
          f ∈ tif_files ∧ strEndsWith f "_scaled.tif" = false) := by
  constructor
  · intro env files f hf
    unfold process_directory_gcode
    split
    · simp
    · exact gcode_walk_skips_marked env files f hf 0
  · intro files f
    simp [process_directory_IX71, List.mem_filter]

/-- Witness for the amended C3 at concrete inputs: "d_scaled.png" is not
processed by the generic walker, and "b.tif" (but not "b_scaled.tif") is
processed by the scope-specific walker. -/
theorem c3_amended_witness :
    "d_scaled.png" ∉ (process_directory_gcode envOK ["d.png", "d_scaled.png"]).processed
    ∧ ("b.tif" ∈ (process_directory_IX71 ["b.tif", "b_scaled.tif"]).processed
        ∧ "b_scaled.tif" ∉ (process_directory_IX71 ["b.tif", "b_scaled.tif"]).processed) :=
  ⟨c3_amended.1 envOK ["d.png", "d_scaled.png"] "d_scaled.png" (by decide),
   ⟨(c3_amended.2 ["b.tif", "b_scaled.tif"] "b.tif").mpr ⟨by decide, by decide⟩,
    fun hm => by
      have h := (c3_amended.2 ["b.tif", "b_scaled.tif"] "b_scaled.tif").mp hm
      exact absurd h.2 (by decide)⟩⟩

/-- A filesystem where every path exists but `cv2.imread` cannot decode any
file (returns `None`), on Linux. -/
def envUndecodable : Env :=
  { pathExists := fun _ => true, imread := fun _ => none, platform := "linux" }

/-- C4 is contradicted by the code: on an existing `.png` file that cv2
cannot decode (`imread` returns `None`), the generic pipeline's
`add_scale_bar` reaches `image.shape` without a `None` check and raises an
uncaught `AttributeError` — the listed "unreadable image" condition is not
reported as a printed message and the exception propagates, so the process
does not exit 0.  The sibling scope-specific script checks for the same
condition and prints its dimension message. -/
theorem c4_gcode_crash_on_undecodable :
    add_scale_bar_gcode envUndecodable "img.png" = .crash
    ∧ add_scale_bar_IX71 envUndecodable "img.tif" none = .errMsg dimMsg := by
  exact ⟨by decide, by decide⟩

/-- C9 is false as stated: the scope-specific walker prints nothing after its
loop — here it processes "a.tif" yet emits no count line. -/
theorem c9_counterexample :
    (process_directory_IX71 ["a.tif"]).processed = ["a.tif"]
    ∧ (process_directory_IX71 ["a.tif"]).printedCount = none := by
  exact ⟨by decide, by decide⟩

/-- The generic walker's loop adds to the running count exactly the scanned
children that do not carry the `"_scaled"` marker, provided no child makes
`add_scale_bar` raise. -/
theorem gcode_walk_count (env : Env) (files : List String)
    (hok : ∀ f ∈ files, add_scale_bar_gcode env f ≠ .crash) :
    ∀ n, (gcode_walk env files n).printedCount =
      some (n + (files.filter (fun f => !(strContains f "_scaled"))).length) := by
  induction files with
  | nil => intro n; simp [gcode_walk]
  | cons g rest ih =>
    intro n
    have hgok : add_scale_bar_gcode env g ≠ .crash := hok g (List.mem_cons_self g rest)
    have hrest : ∀ f ∈ rest, add_scale_bar_gcode env f ≠ .crash :=
      fun f hf => hok f (List.mem_cons_of_mem g hf)
    by_cases hg : strContains g "_scaled" = true
    · simp only [gcode_walk, hg, if_true, List.filter_cons, Bool.not_eq_true']
      rw [ih hrest n]
      simp [hg]
    · simp only [gcode_walk, hg, if_false]
      cases houtcome : add_scale_bar_gcode env g with
      | errMsg m =>
        simp only [List.filter_cons]
        rw [ih hrest (n + 1)]
        simp [hg]
        omega
      | written p =>
        simp only [List.filter_cons]
        rw [ih hrest (n + 1)]
        simp [hg]
        omega
      | crash => exact absurd houtcome hgok

/-- C9 amended: the scope-specific walker emits no count at all; the generic
walker, given at least one `.png` child and no child that makes
`add_scale_bar` raise, emits exactly the number of children not skipped for
the `"_scaled"` marker (children whose annotation merely fails with a printed
message are still counted). -/
theorem c9_amended :
    (∀ tif_files : List String, (process_directory_IX71 tif_files).printedCount = none)
    ∧ (∀ (env : Env) (png_files : List String),
        png_files ≠ [] →
        (∀ f ∈ png_files, add_scale_bar_gcode env f ≠ .crash) →
        (process_directory_gcode env png_files).printedCount =
          some (png_files.filter (fun f => !(strContains f "_scaled"))).length) := by
  constructor
  · intro files; rfl
  · intro env files hne hok
    unfold process_directory_gcode
    rw [if_neg (by simpa using hne)]
    simpa using gcode_walk_count env files hok 0

/-- Witness for the amended C9 at a concrete directory: of the two children,
the `"_scaled"`-marked one is excluded and the emitted count is 1. -/
theorem c9_amended_witness :
    (process_directory_gcode envOK ["x.png", "y_scaled.png"]).printedCount = some 1 := by
  have h := c9_amended.2 envOK ["x.png", "y_scaled.png"] (by decide) (by decide)
  exact h.trans (by decide)

/-- C5: for every existing `.tif` input to the scope-specific pipeline whose
decoded buffer is not exactly 1920 wide by 1440 high, the call ends with the
`InvalidImageDimensions` message and nothing is written; and the generic
pipeline's outcome never depends on the decoded buffer's dimensions (it
imposes no size check — only existence, extension, decodability and the
platform matter). -/
theorem c5_dimension_check :
    (∀ (env : Env) (image_path : String) (scope_type : Option String) (img : DecodedImage),
        env.pathExists image_path = true →
        strEndsWith image_path ".tif" = true →
        env.imread image_path = some img →
        (img.w ≠ 1920 ∨ img.h ≠ 1440) →
        add_scale_bar_IX71 env image_path scope_type = .errMsg dimMsg
        ∧ ∀ out, add_scale_bar_IX71 env image_path scope_type ≠ .written out)
    ∧ (∀ (env₁ env₂ : Env) (image_path : String),
        env₁.pathExists image_path = env₂.pathExists image_path →
        (env₁.imread image_path).isSome = (env₂.imread image_path).isSome →
        env₁.platform = env₂.platform →
        add_scale_bar_gcode env₁ image_path = add_scale_bar_gcode env₂ image_path) := by
  constructor
  · intro env p st img h1 h2 h3 h4
    have hmain : add_scale_bar_IX71 env p st = .errMsg dimMsg := by
      unfold add_scale_bar_IX71
      rw [h1, h2, h3]
      exact if_pos (Or.symm h4)
    refine ⟨hmain, fun out hw => ?_⟩
    rw [hmain] at hw
    exact Outcome.noConfusion hw
  · intro env₁ env₂ p hex him hplat
    cases h1 : env₁.imread p with
    | none =>
      cases h2 : env₂.imread p with
      | none => simp [add_scale_bar_gcode, hex, hplat, h1, h2]
      | some i => rw [h1, h2] at him; simp at him
    | some i =>
      cases h2 : env₂.imread p with
      | none => rw [h1, h2] at him; simp at him
      | some j => simp [add_scale_bar_gcode, hex, hplat, h1, h2]

/-- Witness for C5 at concrete inputs: a 100x100 buffer in an otherwise
healthy environment is rejected with the dimension message. -/
theorem c5_witness :
    add_scale_bar_IX71
      { pathExists := fun _ => true, imread := fun _ => some ⟨100, 100⟩, platform := "linux" }
      "small.tif" none = .errMsg dimMsg :=
  (c5_dimension_check.1
    { pathExists := fun _ => true, imread := fun _ => some ⟨100, 100⟩, platform := "linux" }
    "small.tif" none ⟨100, 100⟩ rfl (by decide) rfl (by decide)).1

/-- C6 is false as stated for the explicit key `""`: Python treats the empty
string as falsy, so an explicitly supplied empty key triggers filename
inference instead of the invalid-configuration failure — here it ends in the
unresolved-configuration message, which is a different message. -/
theorem c6_counterexample :
    add_scale_bar_IX71 envOK "plain.tif" (some "") = .errMsg unresolvedMsg
    ∧ unresolvedMsg ≠ invalidMsg := by
  exact ⟨by decide, by decide⟩

/-- C6 amended: for every explicit NON-EMPTY configuration key that is not
one of the six table keys, a call that has passed the earlier checks (the
file exists, is a `.tif`, and decodes to 1920x1440) ends with the
`InvalidConfiguration` message, so no bar is drawn and no output file is
written; an explicit empty-string key is instead treated as absent and
triggers filename inference. -/
theorem c6_amended :
    ∀ (env : Env) (image_path : String) (k : String) (img : DecodedImage),
      env.pathExists image_path = true →
      strEndsWith image_path ".tif" = true →
      env.imread image_path = some img →
      img.h = 1440 → img.w = 1920 →
      k ≠ "" → k ∉ scopeKeys →
      add_scale_bar_IX71 env image_path (some k) = .errMsg invalidMsg
      ∧ ∀ out, add_scale_bar_IX71 env image_path (some k) ≠ .written out := by
  intro env p k img h1 h2 h3 hh hw hk hmem
  have hres : resolveConfigIX71 (some k) p = .invalid := by
    rw [resolveConfigIX71_some k hk p, (entry_eq_none_iff k).mpr hmem]
  have hmain : add_scale_bar_IX71 env p (some k) = .errMsg invalidMsg := by
    unfold add_scale_bar_IX71
    rw [h1, h2, h3, hres]
    simp [hh, hw]
  refine ⟨hmain, fun out hwr => ?_⟩
  rw [hmain] at hwr
  exact Outcome.noConfusion hwr

/-- Witness for the amended C6 at concrete inputs: the unknown explicit key
"20X_1X" is rejected with the invalid-configuration message. -/
theorem c6_amended_witness :
    add_scale_bar_IX71 envOK "p.tif" (some "20X_1X") = .errMsg invalidMsg :=
  (c6_amended envOK "p.tif" "20X_1X" ⟨1440, 1920⟩ rfl (by decide) rfl rfl rfl
    (by decide) (by decide)).1

/-- C10: in the scope-specific pipeline the existence, extension and
decode-and-shape checks run before configuration resolution — whenever a call
ends with the invalid- or unresolved-configuration message, the file existed,
ended in `.tif` and decoded to exactly 1920x1440; and an input failing an
earlier check gets that earlier check's message even when the supplied key is
also invalid. -/
theorem c10_check_order :
    (∀ (env : Env) (image_path : String) (scope_type : Option String),
        (add_scale_bar_IX71 env image_path scope_type = .errMsg invalidMsg
          ∨ add_scale_bar_IX71 env image_path scope_type = .errMsg unresolvedMsg) →
        env.pathExists image_path = true
        ∧ strEndsWith image_path ".tif" = true
        ∧ env.imread image_path = some ⟨1440, 1920⟩)
    ∧ (∀ (env : Env) (image_path k : String),
        env.pathExists image_path = false →
        add_scale_bar_IX71 env image_path (some k) = .errMsg notExistMsg)
    ∧ (∀ (env : Env) (image_path k : String),
        env.pathExists image_path = true →
        strEndsWith image_path ".tif" = false →
        add_scale_bar_IX71 env image_path (some k) = .errMsg tifExtMsg) := by
  refine ⟨?_, ?_, ?_⟩
  · intro env p st h
    unfold add_scale_bar_IX71 at h
    by_cases h1 : env.pathExists p = false
    · rw [if_pos h1] at h
      rcases h with h | h <;> exact absurd (Outcome.errMsg.inj h) (by decide)
    · rw [if_neg h1] at h
      by_cases h2 : strEndsWith p ".tif" = false
      · rw [if_pos h2] at h
        rcases h with h | h <;> exact absurd (Outcome.errMsg.inj h) (by decide)
      · rw [if_neg h2] at h
        refine ⟨eq_true_of_ne_false h1, eq_true_of_ne_false h2, ?_⟩
        cases h3 : env.imread p with
        | none =>
          rw [h3] at h
          rcases h with h | h <;> exact absurd (Outcome.errMsg.inj h) (by decide)
        | some img =>
          simp only [h3] at h
          by_cases h4 : img.h ≠ 1440 ∨ img.w ≠ 1920
          · rw [if_pos h4] at h
            rcases h with h | h <;> exact absurd (Outcome.errMsg.inj h) (by decide)
          · push_neg at h4
            obtain ⟨hh, hw⟩ := h4
            cases img
            simp_all
  · intro env p k h1
    unfold add_scale_bar_IX71
    rw [if_pos h1]
  · intro env p k h1 h2
    unfold add_scale_bar_IX71
    rw [h1, h2]
    simp

/-- Witness for C10 at concrete inputs: an invalid-configuration outcome for
the bogus key "zzz" certifies that the earlier checks all passed. -/
theorem c10_witness :
    envOK.pathExists "p.tif" = true
    ∧ strEndsWith "p.tif" ".tif" = true
    ∧ envOK.imread "p.tif" = some ⟨1440, 1920⟩ :=
  c10_check_order.1 envOK "p.tif" (some "zzz") (Or.inl (by decide))

/-- C8: whenever either pipeline reports a successful write, the output path
is the input path with the 4-character extension suffix replaced by
`"_scaled"` followed by the pipeline's extension — for the scope-specific
pipeline the input path splits as `stem ++ ".tif"` and the output is
`stem ++ "_scaled.tif"`; for the generic pipeline the input splits as
`stem` plus a 4-character tail that lowercases to `".png"`, and the output is
`stem ++ "_scaled.png"`.  No other output path is produced, since these are
the only `.written` outcomes the functions have. -/
theorem c8_output_path :
    (∀ (env : Env) (image_path : String) (scope_type : Option String) (out : String),
        add_scale_bar_IX71 env image_path scope_type = .written out →
        image_path = pyDropLast image_path 4 ++ ".tif"
        ∧ out = pyDropLast image_path 4 ++ "_scaled.tif")
    ∧ (∀ (env : Env) (image_path : String) (out : String),
        add_scale_bar_gcode env image_path = .written out →
        image_path = pyDropLast image_path 4 ++ pyLastN image_path 4
        ∧ pyLower (pyLastN image_path 4) = ".png"
        ∧ out = pyDropLast image_path 4 ++ "_scaled.png") := by
  constructor
  · intro env p st out h
    unfold add_scale_bar_IX71 at h
    by_cases h1 : env.pathExists p = false
    · rw [if_pos h1] at h; exact absurd h (by simp)
    · rw [if_neg h1] at h
      by_cases h2 : strEndsWith p ".tif" = false
      · rw [if_pos h2] at h; exact absurd h (by simp)
      · rw [if_neg h2] at h
        have h2t : strEndsWith p ".tif" = true := eq_true_of_ne_false h2
        cases h3 : env.imread p with
        | none => rw [h3] at h; exact absurd h (by simp)
        | some img =>
          simp only [h3] at h
          by_cases h4 : img.h ≠ 1440 ∨ img.w ≠ 1920
          · rw [if_pos h4] at h; exact absurd h (by simp)
          · rw [if_neg h4] at h
            cases h5 : resolveConfigIX71 st p with
            | unresolved => rw [h5] at h; exact absurd h (by simp)
            | invalid => rw [h5] at h; exact absurd h (by simp)
            | ok n l =>
              rw [h5] at h
              by_cases h6 : platform_font_ok env.platform = false
              · rw [if_pos h6] at h; exact absurd h (by simp)
              · rw [if_neg h6] at h
                exact ⟨strEndsWith_decomp h2t, (Outcome.written.inj h).symm⟩
  · intro env p out h
    unfold add_scale_bar_gcode at h
    by_cases h1 : env.pathExists p = false
    · rw [if_pos h1] at h; exact absurd h (by simp)
    · rw [if_neg h1] at h
      by_cases h2 : strEndsWith (pyLower p) ".png" = false
      · rw [if_pos h2] at h; exact absurd h (by simp)
      · rw [if_neg h2] at h
        have h2t : strEndsWith (pyLower p) ".png" = true := eq_true_of_ne_false h2
        cases h3 : env.imread p with
        | none => rw [h3] at h; exact absurd h (by simp)
        | some img =>
          simp only [h3] at h
          by_cases h6 : platform_font_ok env.platform = false
          · rw [if_pos h6] at h; exact absurd h (by simp)
          · rw [if_neg h6] at h
            exact ⟨pySplit p 4, pyLower_strEndsWith h2t, (Outcome.written.inj h).symm⟩

/-- Witness for C8 at concrete inputs: "b.tif" with an explicit valid key is
written to "b_scaled.tif", and "c.PNG" (upper-case extension) is written to
"c_scaled.png". -/
theorem c8_witness :
    ("b.tif" = pyDropLast "b.tif" 4 ++ ".tif"
      ∧ "b_scaled.tif" = pyDropLast "b.tif" 4 ++ "_scaled.tif")
    ∧ ("c.PNG" = pyDropLast "c.PNG" 4 ++ pyLastN "c.PNG" 4
      ∧ pyLower (pyLastN "c.PNG" 4) = ".png"
      ∧ "c_scaled.png" = pyDropLast "c.PNG" 4 ++ "_scaled.png") :=
  ⟨c8_output_path.1 envOK "b.tif" (some "4X_1X") "b_scaled.tif" (by
      have hres : resolveConfigIX71 (some "4X_1X") "b.tif" = .ok 159 "300 μm" := by
        rw [resolveConfigIX71_some _ (by decide) _, entry_4X_1X]
      unfold add_scale_bar_IX71
      rw [hres]
      decide),
   c8_output_path.2 envOK "c.PNG" "c_scaled.png" (by decide)⟩

/-- Pixels outside the drawn bar and outside the text renderer's footprint
pass through the whole drawing tail unchanged: the rectangle leaves them
alone, the renderer leaves them alone by assumption, and the two channel
swaps cancel. -/
theorem annotatePixels_outside (img : Img) (w h size xOff yOff thickness tOff : ℕ)
    (color : Pix) (txtw : ℚ) (T : ℤ × ℤ → Prop) (render : ℤ × ℤ → Img → Img)
    (hloc : ∀ tp im q, ¬ T q → render tp im q = im q)
    (q : ℤ × ℤ) (hbar : barRect w h size xOff yOff thickness q = false) (hT : ¬ T q) :
    annotatePixels img w h size xOff yOff thickness tOff color txtw render q = img q := by
  unfold barRect at hbar
  have hx : ((w : ℤ) - size - xOff) + size = (w : ℤ) - xOff := by ring
  have hrect : cvRectangleFilled img ((w : ℤ) - size - xOff) ((h : ℤ) - yOff)
      (((w : ℤ) - size - xOff) + size) (((h : ℤ) - yOff) + thickness) color q = img q := by
    unfold cvRectangleFilled
    rw [hx, hbar]
    simp
  show cvtColorSwap (render _ (cvtColorSwap (cvRectangleFilled img _ _ _ _ color))) q = img q
  unfold cvtColorSwap
  rw [hloc _ _ q hT]
  show (cvRectangleFilled img _ _ _ _ color) q = img q
  exact hrect

/-- C7: for any text renderer that only touches pixels in a region `T` (the
label's footprint), both pipelines' drawing tails leave every pixel outside
the bar rectangle and outside `T` equal to its input value, and the
BGR-to-RGB-and-back channel conversion round-trips, so the returned buffer is
in the original channel order. -/
theorem c7_frame_effect :
    ∀ (T : ℤ × ℤ → Prop) (render : ℤ × ℤ → Img → Img),
      (∀ tp im q, ¬ T q → render tp im q = im q) →
      (∀ (img : Img) (size : ℕ) (txtw : ℚ) (q : ℤ × ℤ),
          barRect 1920 1440 size 60 80 30 q = false → ¬ T q →
          annotate_IX71 img size txtw render q = img q)
      ∧ (∀ (img : Img) (w h : ℕ) (txtw : ℚ) (q : ℤ × ℤ),
          barRect w h 240 10 35 25 q = false → ¬ T q →
          annotate_gcode img w h txtw render q = img q)
      ∧ (∀ im : Img, cvtColorSwap (cvtColorSwap im) = im) := by
  intro T render hloc
  refine ⟨?_, ?_, cvtColorSwap_involutive⟩
  · intro img size txtw q hbar hT
    exact annotatePixels_outside img 1920 1440 size 60 80 30 60 ⟨255, 255, 255⟩ txtw
      T render hloc q hbar hT
  · intro img w h txtw q hbar hT
    exact annotatePixels_outside img w h 240 10 35 25 50 ⟨0, 0, 0⟩ txtw
      T render hloc q hbar hT

/-- Witness for C7 at concrete inputs: with a renderer that touches nothing,
the pixel at the origin of a constant image is unchanged by the
scope-specific drawing tail with the 159-pixel bar. -/
theorem c7_witness :
    annotate_IX71 (fun _ => ⟨7, 8, 9⟩) 159 0 (fun _ im => im) (0, 0) = Pix.mk 7 8 9 :=
  (c7_frame_effect (fun _ => False) (fun _ im => im) (fun _ _ _ _ => rfl)).1
    (fun _ => ⟨7, 8, 9⟩) 159 0 (0, 0) (by decide) (fun hf => hf)
